import Mathlib

/-!
Shallow embedding of the DEPLOY_COLLECTION action handler of
`packages/plugin-solana-agentkit/src/actions/deployCollection.ts`.

The handler is a linear pipeline: an empty-input guard, a database metrics
lookup, a language-model extraction call, a zod schema validation
(`collectionSchema.parse`), an advisory metadata-URI fetch with fallback to a
default URI, and a single SDK `deployCollection` call, the whole body wrapped
in one try/catch that converts any thrown error into a callback payload plus a
`false` return value.

External calls (database lookup, language model, network fetch, SDK deploy)
and the external zod URL syntax check are modelled as parameters of an `Env`
record: each fallible call is an `Except String` value carrying either its
result or the message of the error it throws.  JavaScript numbers appearing in
the validated data are modelled as `Rat`; JSON documents as an inductive
`Json` type.  The handler itself is a total function from the environment and
the incoming message to its boolean result, the list of callback payloads it
emitted, the request it forwarded to the SDK (if any), and a count of each
kind of external effect it performed.
-/

namespace DeployCollection

/-- JSON values, as produced by `response.json()` and by the language model. -/
inductive Json where
  | null
  | bool (b : Bool)
  | num (q : Rat)
  | str (s : String)
  | arr (elems : List Json)
  | obj (fields : List (String × Json))

/-- Property access `j.k` on a JSON value: a lookup on objects, `undefined`
(here `none`) on everything else. -/
def Json.getField : Json → String → Option Json
  | .obj fields, key => fields.lookup key
  | _, _ => none

/-- JavaScript truthiness of a JSON value. -/
def Json.truthy : Json → Bool
  | .null => false
  | .bool b => b
  | .num q => q != 0
  | .str s => s != ""
  | .arr _ => true
  | .obj _ => true

/-- Truthiness of a possibly-`undefined` property (`undefined` is falsy). -/
def truthyOpt : Option Json → Bool
  | none => false
  | some j => j.truthy

/-- One entry of the `creators` array of `collectionSchema`. -/
structure Creator where
  address : String
  percentage : Rat
deriving DecidableEq, Repr

/-- The result of a successful `collectionSchema.parse`: the validated
collection parameters. -/
structure CollectionParams where
  name : String
  uri : String
  royaltyBasisPoints : Option Rat
  creators : Option (List Creator)
deriving DecidableEq, Repr

/-- Parse of one element against
`z.object({ address: z.string(), percentage: z.number().min(0).max(100) })`. -/
def parseCreator (j : Json) : Option Creator :=
  match j.getField "address", j.getField "percentage" with
  | some (.str a), some (.num p) =>
      if 0 ≤ p ∧ p ≤ 100 then some ⟨a, p⟩ else none
  | _, _ => none

/-- Parse of the optional `royaltyBasisPoints` field against
`z.number().min(0).max(10000).optional()`: an absent field is accepted as
`none`; a present field must be a number in range. -/
def parseRoyalty : Option Json → Option (Option Rat)
  | none => some none
  | some (.num q) => if 0 ≤ q ∧ q ≤ 10000 then some (some q) else none
  | some _ => none

/-- Parse of the optional `creators` field against
`z.array(...).optional()`: an absent field is accepted as `none`; a present
field must be an array whose every element parses. -/
def parseCreators : Option Json → Option (Option (List Creator))
  | none => some none
  | some (.arr elems) => (elems.mapM parseCreator).map some
  | some _ => none

/-- The `collectionSchema.parse` call: the zod object schema of the source.
`urlValid` stands for zod's external WHATWG-URL syntax check backing
`z.string().url()`.  A parse failure (zod throwing a `ZodError`) is `none`. -/
def collectionSchemaParse (urlValid : String → Bool) (j : Json) :
    Option CollectionParams :=
  match j.getField "name", j.getField "uri" with
  | some (.str n), some (.str u) =>
      if 1 ≤ n.length ∧ urlValid u = true then
        match parseRoyalty (j.getField "royaltyBasisPoints"),
              parseCreators (j.getField "creators") with
        | some r, some c => some ⟨n, u, r, c⟩
        | _, _ => none
      else none
  | _, _ => none

/-- Result of the `validateMetadataUri` helper, given the outcome of
`fetch(uri)` followed by `response.json()` (an `Except` carrying the thrown
error's message on failure): the fetched document must have truthy `name`,
`description` and `image` properties; any throw inside the try yields
`false`. -/
def validateMetadataUri (fetchResult : Except String Json) : Bool :=
  match fetchResult with
  | .error _ => false
  | .ok metadata =>
      truthyOpt (metadata.getField "name") &&
      truthyOpt (metadata.getField "description") &&
      truthyOpt (metadata.getField "image")

/-- The object returned by `runtime.databaseAdapter.getMetrics` when it
returns one (its shape mirrors the inline fallback object of the source). -/
structure Metrics where
  defaultRoyalty : Rat
  defaultCreator : String
deriving DecidableEq, Repr

/-- The `content` field of the incoming message; `none` models an absent
field. -/
structure Content where
  text : Option String
  source : Option String
deriving DecidableEq, Repr

/-- The incoming message (`Memory` in the source). -/
structure Message where
  content : Content
  userId : String
deriving DecidableEq, Repr

/-- JavaScript falsiness of a possibly-absent string: absent (`undefined`) and
the empty string are falsy. -/
def falsyStr : Option String → Bool
  | none => true
  | some s => s == ""

/-- The argument object of the SDK `deployCollection` call built by the
handler. -/
structure DeployRequest where
  name : String
  uri : String
  royaltyBasisPoints : Rat
  creators : List Creator
deriving DecidableEq, Repr

/-- The result object of a successful SDK `deployCollection` call. -/
structure SdkResult where
  collectionAddress : String
  signature : String
deriving DecidableEq, Repr

/-- A payload passed to the handler's callback: either the success object
`{text, content: {success, collectionAddress, name, signature}}` or an error
object `{text, content: {error}}`. -/
inductive Payload where
  | success (text collectionAddress name signature : String)
  | error (text message : String)
deriving DecidableEq, Repr

/-- Counts of the handler's external effects in one invocation. -/
structure Effects where
  dbCalls : Nat
  modelCalls : Nat
  fetches : Nat
  sdkCalls : Nat
deriving DecidableEq, Repr

/-- Everything the handler returns or emits in one invocation. -/
structure HandlerResult where
  result : Bool
  callbacks : List Payload
  sdkRequest : Option DeployRequest
  effects : Effects
deriving DecidableEq, Repr

/-- The behaviour of the handler's environment: runtime settings (an unset
setting is the empty string, which is falsy), the zod URL syntax check, and
the outcome of each external call, with `Except.error` modelling a throw. -/
structure Env where
  settings : String → String
  urlValid : String → Bool
  metricsResult : Except String (Option Metrics)
  modelResult : Except String Json
  fetch : String → Except String Json
  walletAddress : String
  deploy : DeployRequest → Except String SdkResult

/-- The hardcoded fallback metadata URI of the source. -/
def defaultMetadataUri : String :=
  "https://raw.githubusercontent.com/solana-developers/opos-asset/main/assets/CompressedCoil/metadata.json"

/-- Stand-in for the message of the `ZodError` thrown by a failing
`collectionSchema.parse` (its exact text is irrelevant to the handler). -/
def validationErrorMessage : String := "Validation error"

/-- Callback emission: the handler only invokes the callback when one was
provided (`if (callback)` in the source). -/
def emitCb (hasCallback : Bool) (p : Payload) : List Payload :=
  if hasCallback then [p] else []

/-- The catch block of the handler: report the thrown error's message through
the callback and return `false`. -/
def failOut (hasCallback : Bool) (msg : String) (req : Option DeployRequest)
    (eff : Effects) : HandlerResult :=
  { result := false
    callbacks := emitCb hasCallback
      (.error ("Failed to deploy collection: " ++ msg) msg)
    sdkRequest := req
    effects := eff }

/-- The text of the success callback. -/
def successText (name addr : String) : String :=
  "Successfully deployed NFT collection \"" ++ name ++
    "\"! Collection address: " ++ addr

/-- Resolution of `validatedParams.uri`: kept when it is truthy and the
metadata check passes, otherwise replaced by the `DEFAULT_NFT_METADATA_URI`
setting, or by the hardcoded fallback when that setting is falsy. -/
def resolveUri (env : Env) (uri : String) : String :=
  if uri ≠ "" ∧ validateMetadataUri (env.fetch uri) = true then uri
  else if env.settings "DEFAULT_NFT_METADATA_URI" ≠ "" then
    env.settings "DEFAULT_NFT_METADATA_URI"
  else defaultMetadataUri

/-- The expression `validatedParams.royaltyBasisPoints || 500`: JavaScript
`||` treats both `undefined` and `0` as falsy. -/
def royaltyOrDefault : Option Rat → Rat
  | none => 500
  | some q => if q = 0 then 500 else q

/-- The expression `validatedParams.creators || [default]`: an empty array is
truthy in JavaScript, so only an absent field takes the default single-creator
entry built from `solanaAgentKit.wallet_address`. -/
def creatorsOrDefault (walletAddress : String) :
    Option (List Creator) → List Creator
  | none => [⟨walletAddress, 100⟩]
  | some cs => cs

/-- The request object of the SDK `deployCollection` call, as built at the
call site from the validated parameters (with `uri` already resolved). -/
def buildRequest (env : Env) (v : CollectionParams) : DeployRequest :=
  { name := v.name
    uri := resolveUri env v.uri
    royaltyBasisPoints := royaltyOrDefault v.royaltyBasisPoints
    creators := creatorsOrDefault env.walletAddress v.creators }

/-- The DEPLOY_COLLECTION handler, step for step from the source: empty-input
guard, `getMetrics` lookup (its non-throwing result is never used),
language-model extraction, `collectionSchema.parse`, metadata-URI check with
fallback, SDK deploy, success callback; every throw is converted by the
enclosing catch into an error callback plus `false`. -/
def handler (env : Env) (message : Message) (hasCallback : Bool) :
    HandlerResult :=
  if falsyStr message.content.text && falsyStr message.content.source then
    { result := false
      callbacks := emitCb hasCallback
        (.error "Cannot process empty message content" "Empty message content")
      sdkRequest := none
      effects := ⟨0, 0, 0, 0⟩ }
  else
    match env.metricsResult with
    | .error e => failOut hasCallback e none ⟨1, 0, 0, 0⟩
    | .ok _ =>
      match env.modelResult with
      | .error e => failOut hasCallback e none ⟨1, 1, 0, 0⟩
      | .ok params =>
        match collectionSchemaParse env.urlValid params with
        | none => failOut hasCallback validationErrorMessage none ⟨1, 1, 0, 0⟩
        | some v =>
          let fetches : Nat := if v.uri = "" then 0 else 1
          let request := buildRequest env v
          match env.deploy request with
          | .error e =>
              failOut hasCallback e (some request) ⟨1, 1, fetches, 1⟩
          | .ok r =>
              { result := true
                callbacks := emitCb hasCallback
                  (.success (successText v.name r.collectionAddress)
                    r.collectionAddress v.name r.signature)
                sdkRequest := some request
                effects := ⟨1, 1, fetches, 1⟩ }

/-! Concrete instances used by witnesses and counterexamples. -/

/-- A metadata document whose `name`, `description` and `image` are truthy. -/
def goodMetadata : Json :=
  .obj [("name", .str "OPOS"), ("description", .str "d"), ("image", .str "i")]

/-- A fully-specified candidate object as the language model would return
it. -/
def candFull : Json :=
  .obj [("name", .str "Test Collection"),
        ("uri", .str "https://example.org/metadata.json"),
        ("royaltyBasisPoints", .num 500),
        ("creators",
          .arr [.obj [("address", .str "WALLET1"),
                      ("percentage", .num 100)]])]

/-- An environment in which every external call succeeds. -/
def envOk : Env :=
  { settings := fun key =>
      if key == "SOLANA_PUBLIC_KEY" then "PUBKEY1"
      else if key == "DEFAULT_NFT_METADATA_URI" then
        "https://default.example/meta.json"
      else "SET"
    urlValid := fun s => !s.isEmpty
    metricsResult := .ok none
    modelResult := .ok candFull
    fetch := fun _ => .ok goodMetadata
    walletAddress := "WALLETSDK"
    deploy := fun _ => .ok ⟨"COLL1", "SIG1"⟩ }

/-- A non-empty incoming message. -/
def msgOk : Message := ⟨⟨some "deploy a collection", none⟩, "user-1"⟩

/-- A message with neither a `text` nor a `source` field. -/
def msgEmpty : Message := ⟨⟨none, none⟩, "user-1"⟩

/-! Inversion lemmas about the schema parse. -/

/-- A successful `collectionSchema.parse` determines each field of the
result from the corresponding property of the candidate object. -/
theorem collectionSchemaParse_inv {urlValid : String → Bool} {j : Json}
    {v : CollectionParams} (h : collectionSchemaParse urlValid j = some v) :
    j.getField "name" = some (.str v.name) ∧
    j.getField "uri" = some (.str v.uri) ∧
    1 ≤ v.name.length ∧ urlValid v.uri = true ∧
    parseRoyalty (j.getField "royaltyBasisPoints") = some v.royaltyBasisPoints ∧
    parseCreators (j.getField "creators") = some v.creators := by
  unfold collectionSchemaParse at h
  split at h
  next n u hn hu =>
    split at h
    next hc =>
      split at h
      next r c hr hcs =>
        cases h
        exact ⟨hn, hu, hc.1, hc.2, hr, hcs⟩
      next => cases h
    next => cases h
  next => cases h

/-- An accepted, present `royaltyBasisPoints` value lies in [0, 10000]. -/
theorem parseRoyalty_range {o : Option Json} {q : Rat}
    (h : parseRoyalty o = some (some q)) : 0 ≤ q ∧ q ≤ 10000 := by
  unfold parseRoyalty at h
  split at h
  next => cases h
  next q' =>
    split at h
    next hc =>
      cases h
      exact hc
    next => cases h
  next => cases h

/-- A candidate whose `royaltyBasisPoints` property is a number outside
[0, 10000] fails `collectionSchema.parse`. -/
theorem collectionSchemaParse_royalty_out_of_range {urlValid : String → Bool}
    {j : Json} {q : Rat}
    (hq : j.getField "royaltyBasisPoints" = some (.num q))
    (hrange : ¬ (0 ≤ q ∧ q ≤ 10000)) :
    collectionSchemaParse urlValid j = none := by
  have hr : parseRoyalty (j.getField "royaltyBasisPoints") = none := by
    rw [hq]
    unfold parseRoyalty
    simp [hrange]
  unfold collectionSchemaParse
  split
  next n u hn hu =>
    split
    next => rw [hr]
    next => rfl
  next => rfl

/-- An error text produced by the catch block is never empty. -/
theorem failText_ne_empty (s : String) :
    ("Failed to deploy collection: " ++ s) ≠ "" := by
  cases s with
  | mk data =>
    intro h
    have hd : "Failed to deploy collection: ".data ++ data = [] :=
      congrArg String.data h
    simp at hd

/-- When the guard passes, the metrics lookup and the model call return, and
the parse succeeds, the handler forwards exactly `buildRequest env v` to the
SDK, whatever the deploy outcome. -/
theorem handler_sdkRequest_of_parse (env : Env) (message : Message)
    (cb : Bool) (m : Option Metrics) (params : Json) (v : CollectionParams)
    (hguard : (falsyStr message.content.text &&
        falsyStr message.content.source) = false)
    (hmetrics : env.metricsResult = .ok m)
    (hmodel : env.modelResult = .ok params)
    (hparse : collectionSchemaParse env.urlValid params = some v) :
    (handler env message cb).sdkRequest = some (buildRequest env v) ∧
    (handler env message cb).effects.sdkCalls = 1 := by
  cases hdep : env.deploy (buildRequest env v) with
  | error e =>
      constructor <;>
        simp [handler, hguard, hmetrics, hmodel, hparse, hdep, failOut]
  | ok r =>
      constructor <;>
        simp [handler, hguard, hmetrics, hmodel, hparse, hdep]

/-! Claim theorems. -/

/-- C3: for every incoming message whose content has neither a text field nor
a source field, the handler reports the empty-input error through the callback
and returns false, performing no database lookup, no language-model call, no
network fetch and no SDK call. -/
theorem C3_empty_input_guard (env : Env) (userId : String) :
    handler env ⟨⟨none, none⟩, userId⟩ true =
      { result := false
        callbacks := [.error "Cannot process empty message content"
          "Empty message content"]
        sdkRequest := none
        effects := ⟨0, 0, 0, 0⟩ } := rfl

/-- C4: a candidate whose `royaltyBasisPoints` is a number outside [0, 10000]
fails schema validation: the handler reports the validation error and returns
false, and the SDK deployCollection call is never reached. -/
theorem C4_royalty_out_of_range (env : Env) (message : Message)
    (m : Option Metrics) (params : Json) (q : Rat)
    (hguard : (falsyStr message.content.text &&
        falsyStr message.content.source) = false)
    (hmetrics : env.metricsResult = .ok m)
    (hmodel : env.modelResult = .ok params)
    (hq : params.getField "royaltyBasisPoints" = some (.num q))
    (hrange : q < 0 ∨ 10000 < q) :
    handler env message true =
      { result := false
        callbacks := [.error ("Failed to deploy collection: " ++
            validationErrorMessage) validationErrorMessage]
        sdkRequest := none
        effects := ⟨1, 1, 0, 0⟩ } := by
  have hparse : collectionSchemaParse env.urlValid params = none :=
    collectionSchemaParse_royalty_out_of_range hq
      (by rintro ⟨h0, h1⟩; rcases hrange with h | h <;> linarith)
  simp [handler, hguard, hmetrics, hmodel, hparse, failOut, emitCb]

/-- A candidate whose royalty is the out-of-range number 20000. -/
def candBadRoyalty : Json :=
  .obj [("name", .str "Bad"), ("uri", .str "https://e.org/m.json"),
        ("royaltyBasisPoints", .num 20000)]

/-- An otherwise-good environment whose model call yields the out-of-range
candidate. -/
def envBadRoyalty : Env := { envOk with modelResult := .ok candBadRoyalty }

/-- Witness for C4 at a concrete out-of-range candidate. -/
theorem C4_royalty_out_of_range_witness :
    handler envBadRoyalty msgOk true =
      { result := false
        callbacks := [.error ("Failed to deploy collection: " ++
            validationErrorMessage) validationErrorMessage]
        sdkRequest := none
        effects := ⟨1, 1, 0, 0⟩ } :=
  C4_royalty_out_of_range envBadRoyalty msgOk none candBadRoyalty 20000
    (by decide) rfl rfl rfl (Or.inr (by norm_num))

/-- The rational 1/2 given by its reduced fraction, a non-integer number. -/
def halfRoyalty : Rat := ⟨1, 2, by decide, by decide⟩

/-- A candidate whose royalty is the non-integer number 1/2. -/
def candHalfRoyalty : Json :=
  .obj [("name", .str "Half"), ("uri", .str "https://e.org/m.json"),
        ("royaltyBasisPoints", .num halfRoyalty)]

/-- C8 counterexample: schema validation accepts a candidate whose
`royaltyBasisPoints` is the non-integer 1/2 (denominator 2, not 1) — the
schema checks only the range, not integrality, so the claim that validation
rejects non-integer values is false. -/
theorem C8_counterexample :
    collectionSchemaParse (fun s => !s.isEmpty) candHalfRoyalty =
      some ⟨"Half", "https://e.org/m.json", some halfRoyalty, none⟩ ∧
    halfRoyalty.den ≠ 1 := ⟨by decide, by decide⟩

/-- C8 (amended): a `royaltyBasisPoints` value surviving schema validation is
a number in [0, 10000]; integrality is not enforced. -/
theorem C8_royalty_in_range (urlValid : String → Bool) (j : Json)
    (v : CollectionParams) (q : Rat)
    (hparse : collectionSchemaParse urlValid j = some v)
    (hq : v.royaltyBasisPoints = some q) :
    0 ≤ q ∧ q ≤ 10000 := by
  obtain ⟨-, -, -, -, hr, -⟩ := collectionSchemaParse_inv hparse
  rw [hq] at hr
  exact parseRoyalty_range hr

/-- Witness for C8 at the concrete fully-specified candidate. -/
theorem C8_royalty_in_range_witness : (0 : Rat) ≤ 500 ∧ (500 : Rat) ≤ 10000 :=
  C8_royalty_in_range (fun s => !s.isEmpty) candFull
    ⟨"Test Collection", "https://example.org/metadata.json", some 500,
      some [⟨"WALLET1", 100⟩]⟩ 500 rfl rfl

/-- A fully-specified valid candidate whose royalty is 0. -/
def candZeroRoyalty : Json :=
  .obj [("name", .str "Zero"), ("uri", .str "https://e.org/m.json"),
        ("royaltyBasisPoints", .num 0),
        ("creators",
          .arr [.obj [("address", .str "W1"), ("percentage", .num 100)]])]

/-- An otherwise-good environment whose model call yields the zero-royalty
candidate. -/
def envZeroRoyalty : Env := { envOk with modelResult := .ok candZeroRoyalty }

/-- C1 counterexample: a fully-specified valid candidate with
`royaltyBasisPoints = 0` is not passed through verbatim — the JavaScript
`|| 500` default treats 0 as falsy, so the SDK receives 500. -/
theorem C1_counterexample :
    (handler envZeroRoyalty msgOk true).sdkRequest =
      some ⟨"Zero", "https://e.org/m.json", 500, [⟨"W1", 100⟩]⟩ ∧
    (500 : Rat) ≠ 0 := ⟨rfl, by norm_num⟩

/-- C1 (amended): a fully-specified valid candidate — validated name, uri and
creators, present royalty, metadata document passing the check — is forwarded
to the SDK verbatim, except that a `royaltyBasisPoints` of 0 would be replaced
by the default 500 (hence the hypothesis `q ≠ 0`). -/
theorem C1_passthrough (env : Env) (message : Message) (m : Option Metrics)
    (params : Json) (v : CollectionParams) (q : Rat) (cs : List Creator)
    (hguard : (falsyStr message.content.text &&
        falsyStr message.content.source) = false)
    (hmetrics : env.metricsResult = .ok m)
    (hmodel : env.modelResult = .ok params)
    (hparse : collectionSchemaParse env.urlValid params = some v)
    (hq : v.royaltyBasisPoints = some q) (hq0 : q ≠ 0)
    (hcs : v.creators = some cs)
    (huri : v.uri ≠ "")
    (hmeta : validateMetadataUri (env.fetch v.uri) = true) :
    (handler env message true).sdkRequest = some ⟨v.name, v.uri, q, cs⟩ := by
  have hreq : buildRequest env v = ⟨v.name, v.uri, q, cs⟩ := by
    simp [buildRequest, resolveUri, royaltyOrDefault, creatorsOrDefault,
      huri, hmeta, hq, hq0, hcs]
  rw [(handler_sdkRequest_of_parse env message true m params v
    hguard hmetrics hmodel hparse).1, hreq]

/-- Witness for C1 at the concrete fully-specified candidate. -/
theorem C1_passthrough_witness :
    (handler envOk msgOk true).sdkRequest =
      some ⟨"Test Collection", "https://example.org/metadata.json", 500,
        [⟨"WALLET1", 100⟩]⟩ :=
  C1_passthrough envOk msgOk none candFull
    ⟨"Test Collection", "https://example.org/metadata.json", some 500,
      some [⟨"WALLET1", 100⟩]⟩ 500 [⟨"WALLET1", 100⟩]
    (by decide) rfl rfl rfl rfl (by norm_num) rfl (by decide) rfl

/-- A valid candidate with no `creators` property. -/
def candNoCreators : Json :=
  .obj [("name", .str "NC"), ("uri", .str "https://e.org/m.json"),
        ("royaltyBasisPoints", .num 500)]

/-- An otherwise-good environment whose model call yields the
creator-less candidate. -/
def envNoCreators : Env := { envOk with modelResult := .ok candNoCreators }

/-- C2 counterexample: with `creators` omitted, the forwarded creator address
is the SDK-derived wallet address ("WALLETSDK"), which differs from the
configured SOLANA_PUBLIC_KEY setting ("PUBKEY1") in this environment — the
claim ties the default to the wrong configuration value. -/
theorem C2_counterexample :
    (handler envNoCreators msgOk true).sdkRequest =
      some ⟨"NC", "https://e.org/m.json", 500, [⟨"WALLETSDK", 100⟩]⟩ ∧
    envNoCreators.settings "SOLANA_PUBLIC_KEY" = "PUBKEY1" ∧
    ("WALLETSDK" : String) ≠ "PUBKEY1" := ⟨rfl, rfl, by decide⟩

/-- C2 (amended): when the validated candidate omits `creators`, the request
forwarded to the SDK contains exactly one creator entry, with percentage 100
and address equal to `solanaAgentKit.wallet_address` (the wallet the SDK
derives from the configured private key), not the SOLANA_PUBLIC_KEY
setting. -/
theorem C2_default_creator (env : Env) (message : Message)
    (m : Option Metrics) (params : Json) (v : CollectionParams)
    (hguard : (falsyStr message.content.text &&
        falsyStr message.content.source) = false)
    (hmetrics : env.metricsResult = .ok m)
    (hmodel : env.modelResult = .ok params)
    (hparse : collectionSchemaParse env.urlValid params = some v)
    (hcs : v.creators = none) :
    ∃ r, (handler env message true).sdkRequest = some r ∧
      r.creators = [⟨env.walletAddress, 100⟩] := by
  refine ⟨buildRequest env v,
    (handler_sdkRequest_of_parse env message true m params v
      hguard hmetrics hmodel hparse).1, ?_⟩
  simp [buildRequest, creatorsOrDefault, hcs]

/-- Witness for C2 at the concrete creator-less candidate. -/
theorem C2_default_creator_witness :
    ∃ r, (handler envNoCreators msgOk true).sdkRequest = some r ∧
      r.creators = [⟨envNoCreators.walletAddress, 100⟩] :=
  C2_default_creator envNoCreators msgOk none candNoCreators
    ⟨"NC", "https://e.org/m.json", some 500, none⟩
    (by decide) rfl rfl rfl rfl

/-- C5: when the metadata check fails for the validated uri (fetch throwing,
non-JSON body, or a document lacking a truthy name, description or image), the
pipeline does not fail: the forwarded request's uri is the
DEFAULT_NFT_METADATA_URI setting when that setting is non-empty, else the
hardcoded fallback, and the SDK call is still made. -/
theorem C5_metadata_fallback (env : Env) (message : Message)
    (m : Option Metrics) (params : Json) (v : CollectionParams)
    (hguard : (falsyStr message.content.text &&
        falsyStr message.content.source) = false)
    (hmetrics : env.metricsResult = .ok m)
    (hmodel : env.modelResult = .ok params)
    (hparse : collectionSchemaParse env.urlValid params = some v)
    (hmeta : validateMetadataUri (env.fetch v.uri) = false) :
    ∃ r, (handler env message true).sdkRequest = some r ∧
      (handler env message true).effects.sdkCalls = 1 ∧
      r.uri = (if env.settings "DEFAULT_NFT_METADATA_URI" ≠ "" then
          env.settings "DEFAULT_NFT_METADATA_URI" else defaultMetadataUri) := by
  obtain ⟨h1, h2⟩ := handler_sdkRequest_of_parse env message true m params v
    hguard hmetrics hmodel hparse
  refine ⟨buildRequest env v, h1, h2, ?_⟩
  simp [buildRequest, resolveUri, hmeta]

/-- An environment whose metadata fetch throws a network error. -/
def envFetchFail : Env := { envOk with fetch := fun _ => .error "network down" }

/-- Witness for C5 at a concrete failing fetch. -/
theorem C5_metadata_fallback_witness :
    ∃ r, (handler envFetchFail msgOk true).sdkRequest = some r ∧
      (handler envFetchFail msgOk true).effects.sdkCalls = 1 ∧
      r.uri = (if envFetchFail.settings "DEFAULT_NFT_METADATA_URI" ≠ "" then
          envFetchFail.settings "DEFAULT_NFT_METADATA_URI"
        else defaultMetadataUri) :=
  C5_metadata_fallback envFetchFail msgOk none candFull
    ⟨"Test Collection", "https://example.org/metadata.json", some 500,
      some [⟨"WALLET1", 100⟩]⟩ (by decide) rfl rfl rfl rfl

/-- C6: for every input and every behaviour of the external calls, the
handler returns a boolean rather than propagating an exception: every success
path returns true with a success callback, and every failure path returns
false with a callback carrying a non-empty human-readable text and a
structured error payload. -/
theorem C6_no_uncaught_failure (env : Env) (message : Message) :
    ((handler env message true).result = true ∧
      ∃ t a n s, (handler env message true).callbacks = [.success t a n s]) ∨
    ((handler env message true).result = false ∧
      ∃ t e, (handler env message true).callbacks = [.error t e] ∧
        t ≠ "") := by
  cases hg : (falsyStr message.content.text &&
      falsyStr message.content.source) with
  | true =>
      right
      refine ⟨by simp [handler, hg], "Cannot process empty message content",
        "Empty message content", by simp [handler, hg, emitCb], by decide⟩
  | false =>
      cases hm : env.metricsResult with
      | error e =>
          right
          exact ⟨by simp [handler, hg, hm, failOut, emitCb],
            "Failed to deploy collection: " ++ e, e,
            by simp [handler, hg, hm, failOut, emitCb], failText_ne_empty e⟩
      | ok mv =>
          cases hmod : env.modelResult with
          | error e =>
              right
              exact ⟨by simp [handler, hg, hm, hmod, failOut, emitCb],
                "Failed to deploy collection: " ++ e, e,
                by simp [handler, hg, hm, hmod, failOut, emitCb],
                failText_ne_empty e⟩
          | ok params =>
              cases hp : collectionSchemaParse env.urlValid params with
              | none =>
                  right
                  exact ⟨by simp [handler, hg, hm, hmod, hp, failOut, emitCb],
                    "Failed to deploy collection: " ++ validationErrorMessage,
                    validationErrorMessage,
                    by simp [handler, hg, hm, hmod, hp, failOut, emitCb],
                    failText_ne_empty validationErrorMessage⟩
              | some v =>
                  cases hdep : env.deploy (buildRequest env v) with
                  | error e =>
                      right
                      exact ⟨by simp [handler, hg, hm, hmod, hp, hdep,
                          failOut, emitCb],
                        "Failed to deploy collection: " ++ e, e,
                        by simp [handler, hg, hm, hmod, hp, hdep,
                          failOut, emitCb],
                        failText_ne_empty e⟩
                  | ok r =>
                      left
                      exact ⟨by simp [handler, hg, hm, hmod, hp, hdep, emitCb],
                        successText v.name r.collectionAddress,
                        r.collectionAddress, v.name, r.signature,
                        by simp [handler, hg, hm, hmod, hp, hdep, emitCb]⟩

/-- C7 counterexample: the invocation on an empty message performs zero
network fetches and zero language-model calls, not exactly one of each as the
claim requires of every invocation. -/
theorem C7_counterexample :
    (handler envOk msgEmpty true).effects.fetches = 0 ∧
    (handler envOk msgEmpty true).effects.modelCalls = 0 := ⟨rfl, rfl⟩

/-- C7 (amended): every invocation performs at most one network fetch, at
most one language-model call and at most one SDK call, and any invocation
that reaches the SDK deploy call performed exactly one fetch and exactly one
model call before it; the hypothesis states that the URL syntax check rejects
the empty string, as the WHATWG URL parser does. -/
theorem C7_effect_bounds (env : Env) (message : Message) (cb : Bool)
    (hurl : env.urlValid "" = false) :
    (handler env message cb).effects.fetches ≤ 1 ∧
    (handler env message cb).effects.modelCalls ≤ 1 ∧
    (handler env message cb).effects.sdkCalls ≤ 1 ∧
    ((handler env message cb).effects.sdkCalls = 1 →
      (handler env message cb).effects.fetches = 1 ∧
      (handler env message cb).effects.modelCalls = 1) := by
  cases hg : (falsyStr message.content.text &&
      falsyStr message.content.source) with
  | true => simp [handler, hg]
  | false =>
      cases hm : env.metricsResult with
      | error e => simp [handler, hg, hm, failOut]
      | ok mv =>
          cases hmod : env.modelResult with
          | error e => simp [handler, hg, hm, hmod, failOut]
          | ok params =>
              cases hp : collectionSchemaParse env.urlValid params with
              | none => simp [handler, hg, hm, hmod, hp, failOut]
              | some v =>
                  have huri : v.uri ≠ "" := by
                    intro h0
                    obtain ⟨-, -, -, hv, -, -⟩ := collectionSchemaParse_inv hp
                    rw [h0, hurl] at hv
                    simp at hv
                  cases hdep : env.deploy (buildRequest env v) with
                  | error e =>
                      simp [handler, hg, hm, hmod, hp, hdep, failOut, huri]
                  | ok r =>
                      simp [handler, hg, hm, hmod, hp, hdep, huri]

/-- Witness for C7 in the all-succeeding environment. -/
theorem C7_effect_bounds_witness :
    (handler envOk msgOk true).effects.fetches ≤ 1 ∧
    (handler envOk msgOk true).effects.modelCalls ≤ 1 ∧
    (handler envOk msgOk true).effects.sdkCalls ≤ 1 ∧
    ((handler envOk msgOk true).effects.sdkCalls = 1 →
      (handler envOk msgOk true).effects.fetches = 1 ∧
      (handler envOk msgOk true).effects.modelCalls = 1) :=
  C7_effect_bounds envOk msgOk true (by decide)

/-- C9: the handler's entire observable outcome — return value, callback
payloads, SDK request and effect counts — is identical for any two
non-throwing results of the getMetrics lookup (including `none`, where the
inline fallback object is built): the userMetrics object is never read after
construction. -/
theorem C9_metrics_unused (env : Env) (message : Message) (cb : Bool)
    (m1 m2 : Option Metrics) :
    handler { env with metricsResult := .ok m1 } message cb =
      handler { env with metricsResult := .ok m2 } message cb := rfl

/-- A valid candidate whose `creators` property is the empty array. -/
def candEmptyCreators : Json :=
  .obj [("name", .str "EC"), ("uri", .str "https://e.org/m.json"),
        ("creators", .arr [])]

/-- An otherwise-good environment whose model call yields the empty-creators
candidate. -/
def envEmptyCreators : Env := { envOk with modelResult := .ok candEmptyCreators }

/-- C10: a candidate whose `creators` property is present but an empty list
passes schema validation with `creators = some []`, and the empty list is
forwarded verbatim to the SDK (the JavaScript `||` default fires only for an
absent field, an empty array being truthy). -/
theorem C10_empty_creators_passthrough (env : Env) (message : Message)
    (m : Option Metrics) (params : Json) (v : CollectionParams)
    (hguard : (falsyStr message.content.text &&
        falsyStr message.content.source) = false)
    (hmetrics : env.metricsResult = .ok m)
    (hmodel : env.modelResult = .ok params)
    (hfield : params.getField "creators" = some (.arr []))
    (hparse : collectionSchemaParse env.urlValid params = some v) :
    v.creators = some [] ∧
    ∃ r, (handler env message true).sdkRequest = some r ∧
      r.creators = [] := by
  have hvc : v.creators = some [] := by
    obtain ⟨-, -, -, -, -, hc⟩ := collectionSchemaParse_inv hparse
    rw [hfield,
      show parseCreators (some (.arr [])) = some (some []) from rfl] at hc
    exact (Option.some.inj hc).symm
  refine ⟨hvc, buildRequest env v,
    (handler_sdkRequest_of_parse env message true m params v
      hguard hmetrics hmodel hparse).1, ?_⟩
  simp [buildRequest, creatorsOrDefault, hvc]

/-- Witness for C10 at the concrete empty-creators candidate. -/
theorem C10_empty_creators_passthrough_witness :
    (⟨"EC", "https://e.org/m.json", none, some []⟩ :
        CollectionParams).creators = some [] ∧
    ∃ r, (handler envEmptyCreators msgOk true).sdkRequest = some r ∧
      r.creators = [] :=
  C10_empty_creators_passthrough envEmptyCreators msgOk none
    candEmptyCreators ⟨"EC", "https://e.org/m.json", none, some []⟩
    (by decide) rfl rfl rfl rfl

end DeployCollection
